import Mathlib

/-!
Verification of the prediction-head modules in `src/model/modules/head.py`
(DistogramHead, BondTypeHead, PairwiseHead).

Tensors of shape `(batch..., N, N, C)` are embedded as functions
`Idx batch → Fin n → Fin n → Fin c → ℚ`: the list `batch` of leading
(batch) axis sizes, the two token axes of common size `n`, and the trailing
feature axis of size `c`.  All entries are rationals (exact arithmetic; the
heads only use addition and multiplication, so ℚ models the real-valued
semantics faithfully).
-/

/-- Index space for a list of axis sizes. -/
def Idx : List Nat → Type
  | [] => Unit
  | n :: s => Fin n × Idx s

/-- A pairwise tensor of shape `batch ++ [n, n, c]`. -/
def PTensor (batch : List Nat) (n c : Nat) : Type :=
  Idx batch → Fin n → Fin n → Fin c → ℚ

namespace PTensor

/-- The shape of a pairwise tensor, read off its type indices. -/
def shape {batch : List Nat} {n c : Nat} (_ : PTensor batch n c) : List Nat :=
  batch ++ [n, n, c]

/-- Pointwise addition of two tensors of the same shape. -/
def addT {batch : List Nat} {n c : Nat} (t u : PTensor batch n c) : PTensor batch n c :=
  fun b i j k => t b i j k + u b i j k

/-- `transpose(-2, -3)`: exchange of the two token axes. -/
def transposeTok {batch : List Nat} {n c : Nat} (t : PTensor batch n c) : PTensor batch n c :=
  fun b i j k => t b j i k

/-- Apply a map of feature vectors pointwise over the trailing feature axis. -/
def mapFeat {batch : List Nat} {n ci co : Nat}
    (g : (Fin ci → ℚ) → Fin co → ℚ) (t : PTensor batch n ci) : PTensor batch n co :=
  fun b i j => g (t b i j)

/-- `unsqueeze(0)`: insert a new leading singleton axis. -/
def unsqueeze0 {batch : List Nat} {n c : Nat} (t : PTensor batch n c) :
    PTensor (1 :: batch) n c :=
  fun b => t b.2

end PTensor

/-- Modelled from the spec: the `Linear` primitive
(`src.model.modules.primitives.Linear`) is not among the sources; per the
spec (§6) it "applies an affine map over the trailing feature axis" given
input/output feature widths.  `W k j` is the weight from input feature `j`
to output feature `k`, `b k` the bias of output feature `k`. -/
def linearApply {ci co : Nat} (W : Fin co → Fin ci → ℚ) (b : Fin co → ℚ)
    (v : Fin ci → ℚ) : Fin co → ℚ :=
  fun k => (∑ j, W k j * v j) + b k

/-- `DistogramHead`: parameters of its single linear map `c_z → no_bins`. -/
structure DistogramHead (cz nbins : Nat) where
  W : Fin nbins → Fin cz → ℚ
  b : Fin nbins → ℚ

namespace DistogramHead

/-- `DistogramHead.__init__`: the linear map is created with the "zeros"
initialization (modelled from the spec: weights zero, bias zero or absent). -/
def init (cz nbins : Nat) : DistogramHead cz nbins :=
  { W := fun _ _ => 0, b := fun _ => 0 }

/-- `DistogramHead.forward`: `logits = self.linear(z);
logits = logits + logits.transpose(-2, -3); return logits`. -/
def forward {cz nbins : Nat} (h : DistogramHead cz nbins)
    {batch : List Nat} {n : Nat} (z : PTensor batch n cz) : PTensor batch n nbins :=
  let logits := z.mapFeat (linearApply h.W h.b)
  logits.addT logits.transposeTok

end DistogramHead

/-- `BondTypeHead`: parameters of the two chained linear maps
`c_in → c_hidden → no_bond_types`. -/
structure BondTypeHead (cin chidden nbt : Nat) where
  W1 : Fin chidden → Fin cin → ℚ
  b1 : Fin chidden → ℚ
  W2 : Fin nbt → Fin chidden → ℚ
  b2 : Fin nbt → ℚ

namespace BondTypeHead

/-- `BondTypeHead.forward`: `logits = self.classifier(z.unsqueeze(0))`, where
`classifier = Sequential(Linear(c_in, c_hidden), Linear(c_hidden, no_bond_types))`. -/
def forward {cin chidden nbt : Nat} (h : BondTypeHead cin chidden nbt)
    {batch : List Nat} {n : Nat} (z : PTensor batch n cin) :
    PTensor (1 :: batch) n nbt :=
  (z.unsqueeze0.mapFeat (linearApply h.W1 h.b1)).mapFeat (linearApply h.W2 h.b2)

end BondTypeHead

/-- Modelled from the spec: `PairwiseOutput`
(`src.api.model_interface.PairwiseOutput`) is not among the sources; per the
spec (§3) it is "an immutable aggregate of (distogram output, bond-type
output-or-absent)", the absent case being a true "no value" marker. -/
structure PairwiseOutput (α β : Type) where
  distogram : α
  token_bond_type_logits : Option β

/-- Modelled from the spec: `PairFormerOutput`
(`src.api.model_interface.PairFormerOutput`) is not among the sources; per
the spec (§6) it is "an upstream-produced pair-embedding structure with at
least a named tensor field `z`". -/
structure PairFormerOutput (batch : List Nat) (n c : Nat) where
  z : PTensor batch n c

/-- `PairwiseHead`: a distogram sub-head, the `bond_reconstruction` flag, and
the bond-type sub-head, which exists only when the flag was set at
construction (the code assigns the attribute only inside
`if bond_reconstruction:`; the conditionally existing sub-module is modelled
as an `Option`, per the spec's §9 design note). -/
structure PairwiseHead (cz nbt nbins chidden : Nat) where
  distogram_head : DistogramHead cz nbins
  bond_reconstruction : Bool
  bond_type_head : Option (BondTypeHead cz chidden nbt)

namespace PairwiseHead

/-- `PairwiseHead.__init__`: always build the distogram head (zero-init);
build the bond-type head only when `bond_reconstruction` is set.  `btparams`
stands for whatever parameter values the default initialization of the two
bond-type linear layers produces; when the flag is false they are never
allocated. -/
def init (cz nbt nbins chidden : Nat) (bond_reconstruction : Bool)
    (btparams : BondTypeHead cz chidden nbt) : PairwiseHead cz nbt nbins chidden :=
  { distogram_head := DistogramHead.init cz nbins
    bond_reconstruction := bond_reconstruction
    bond_type_head := if bond_reconstruction then some btparams else none }

/-- `PairwiseHead.forward`: compute the distogram from `input_embedding.z`;
compute bond-type logits from the same `z` when `bond_reconstruction`,
else the field is `None`. -/
def forward {cz nbt nbins chidden : Nat} (h : PairwiseHead cz nbt nbins chidden)
    {batch : List Nat} {n : Nat} (input_embedding : PairFormerOutput batch n cz) :
    PairwiseOutput (PTensor batch n nbins) (PTensor (1 :: batch) n nbt) :=
  { distogram := h.distogram_head.forward input_embedding.z
    token_bond_type_logits :=
      if h.bond_reconstruction then
        h.bond_type_head.map (fun bth => bth.forward input_embedding.z)
      else none }

end PairwiseHead

/-! ### Helper lemmas -/

theorem linearApply_zero {ci co : Nat} (v : Fin ci → ℚ) (k : Fin co) :
    linearApply (fun _ _ => 0) (fun _ => 0) v k = 0 := by
  simp [linearApply]

theorem distogram_init_forward_eq_zero {cz nbins : Nat} {batch : List Nat} {n : Nat}
    (z : PTensor batch n cz) (b : Idx batch) (i j : Fin n) (k : Fin nbins) :
    (DistogramHead.init cz nbins).forward z b i j k = 0 := by
  simp [DistogramHead.init, DistogramHead.forward, PTensor.addT, PTensor.transposeTok,
    PTensor.mapFeat, linearApply]

theorem linearApply_comp {ci ch co : Nat}
    (W1 : Fin ch → Fin ci → ℚ) (b1 : Fin ch → ℚ)
    (W2 : Fin co → Fin ch → ℚ) (b2 : Fin co → ℚ) (v : Fin ci → ℚ) (k : Fin co) :
    linearApply W2 b2 (linearApply W1 b1 v) k =
      linearApply (fun k j => ∑ m, W2 k m * W1 m j)
        (fun k => (∑ m, W2 k m * b1 m) + b2 k) v k := by
  simp only [linearApply, mul_add, Finset.sum_add_distrib, Finset.mul_sum, Finset.sum_mul,
    add_assoc]
  rw [Finset.sum_comm]
  ring_nf

/-! ### Claim theorems -/

/-- C1: For every input tensor `z` of shape `(..., N, N, c_z)` and every
parameter setting, the output of `DistogramHead.forward` is exactly symmetric
under exchange of the two token axes, regardless of whether `z` itself is
symmetric. -/
theorem C1_distogram_symmetric {cz nbins : Nat} (h : DistogramHead cz nbins)
    {batch : List Nat} {n : Nat} (z : PTensor batch n cz)
    (b : Idx batch) (i j : Fin n) (k : Fin nbins) :
    h.forward z b i j k = h.forward z b j i k := by
  simp [DistogramHead.forward, PTensor.addT, PTensor.transposeTok, add_comm]

/-- C2: Immediately after construction (weights initialized with the "zeros"
initialization, bias zero or absent), `DistogramHead.forward` returns a tensor
that is identically zero for every input `z` of shape `(..., N, N, c_z)`. -/
theorem C2_zero_init_forward_zero {cz nbins : Nat} {batch : List Nat} {n : Nat}
    (z : PTensor batch n cz) (b : Idx batch) (i j : Fin n) (k : Fin nbins) :
    (DistogramHead.init cz nbins).forward z b i j k = 0 :=
  distogram_init_forward_eq_zero z b i j k

/-- C3: A `PairwiseHead` constructed with `bond_reconstruction = false` returns
on every forward call a `PairwiseOutput` whose bond-type field is `none`, and
holds no bond-type sub-module at all; constructed with
`bond_reconstruction = true`, every forward call returns a present bond-type
field. -/
theorem C3_bond_reconstruction_optionality {cz nbt nbins chidden : Nat}
    (btparams : BondTypeHead cz chidden nbt) {batch : List Nat} {n : Nat}
    (e : PairFormerOutput batch n cz) :
    ((PairwiseHead.init cz nbt nbins chidden false btparams).forward
        e).token_bond_type_logits = none ∧
    (PairwiseHead.init cz nbt nbins chidden false btparams).bond_type_head = none ∧
    ((PairwiseHead.init cz nbt nbins chidden true btparams).forward
        e).token_bond_type_logits = some (btparams.forward e.z) := by
  refine ⟨rfl, rfl, ?_⟩
  simp [PairwiseHead.init, PairwiseHead.forward]

/-- C4: For every input of shape `(..., N, N, c_z)` given to a `DistogramHead`
with bin count `no_bins`, the output has shape `(..., N, N, no_bins)`: batch
axes and both token axes preserved, the feature axis replaced by the bin
axis. -/
theorem C4_distogram_shape {cz nbins : Nat} (h : DistogramHead cz nbins)
    {batch : List Nat} {n : Nat} (z : PTensor batch n cz) :
    z.shape = batch ++ [n, n, cz] ∧ (h.forward z).shape = batch ++ [n, n, nbins] :=
  ⟨rfl, rfl⟩

/-- C5: `BondTypeHead.forward` inserts a new leading singleton axis onto its
input before applying the two-stage classifier: a batch-less input of shape
`(N, N, c_in)` yields output shape `(1, N, N, no_bond_types)`, the output
always retains the inserted leading axis, and its value at the singleton index
is the classifier chain applied to the original input. -/
theorem C5_bondtype_unsqueeze {cin chidden nbt : Nat} (h : BondTypeHead cin chidden nbt)
    {n : Nat} :
    (∀ z : PTensor [] n cin, (h.forward z).shape = [1, n, n, nbt]) ∧
    (∀ (batch : List Nat) (z : PTensor batch n cin),
      (h.forward z).shape = 1 :: (batch ++ [n, n, nbt]) ∧
      ∀ (b : Idx (1 :: batch)),
        h.forward z b =
          ((z.mapFeat (linearApply h.W1 h.b1)).mapFeat (linearApply h.W2 h.b2)) b.2) :=
  ⟨fun _ => rfl, fun _ _ => ⟨rfl, fun _ => rfl⟩⟩

/-- C6: For a `DistogramHead` constructed with `c_z = 4`, `no_bins = 2` and
zero-initialized weights, every input of shape `(1, 3, 3, 4)` yields an output
of shape `(1, 3, 3, 2)` whose entries are all zero. -/
theorem C6_concrete_zero_output (z : PTensor [1] 3 4) :
    ((DistogramHead.init 4 2).forward z).shape = [1, 3, 3, 2] ∧
    ∀ (b : Idx [1]) (i j : Fin 3) (k : Fin 2),
      (DistogramHead.init 4 2).forward z b i j k = 0 :=
  ⟨rfl, fun b i j k => distogram_init_forward_eq_zero z b i j k⟩

/-- C7: Every head is deterministic: forward calls with identical parameter
values and identical inputs produce identical outputs (the heads are pure
functions of parameters and input, with no internal mutable state). -/
theorem C7_deterministic {cz chidden nbt nbins : Nat} {batch : List Nat} {n : Nat}
    (hd hd' : DistogramHead cz nbins) (hb hb' : BondTypeHead cz chidden nbt)
    (hp hp' : PairwiseHead cz nbt nbins chidden)
    (z z' : PTensor batch n cz) (e e' : PairFormerOutput batch n cz)
    (h1 : hd = hd') (h2 : hb = hb') (h3 : hp = hp') (h4 : z = z') (h5 : e = e') :
    hd.forward z = hd'.forward z' ∧ hb.forward z = hb'.forward z' ∧
    hp.forward e = hp'.forward e' := by
  subst h1 h2 h3 h4 h5
  exact ⟨rfl, rfl, rfl⟩

/-- C8: On the diagonal the symmetrization doubles the projected value: for
every `z` and token index `i`, `DistogramHead(z)[..., i, i, :]` equals twice
the linear projection at `[..., i, i, :]`, with no special-casing of diagonal
elements. -/
theorem C8_diagonal_doubled {cz nbins : Nat} (h : DistogramHead cz nbins)
    {batch : List Nat} {n : Nat} (z : PTensor batch n cz)
    (b : Idx batch) (i : Fin n) (k : Fin nbins) :
    h.forward z b i i k = 2 * (z.mapFeat (linearApply h.W h.b)) b i i k := by
  simp [DistogramHead.forward, PTensor.addT, PTensor.transposeTok]
  ring

/-- C9: `BondTypeHead`'s classifier is two chained affine maps with no
nonlinearity between them, so for every instance there is a single affine map
from `c_in` to `no_bond_types` features extensionally equal to the two-stage
classifier on every input. -/
theorem C9_classifier_collapsible {cin chidden nbt : Nat}
    (h : BondTypeHead cin chidden nbt) :
    ∃ (W : Fin nbt → Fin cin → ℚ) (b : Fin nbt → ℚ),
      ∀ (batch : List Nat) (n : Nat) (z : PTensor batch n cin),
        h.forward z = z.unsqueeze0.mapFeat (linearApply W b) := by
  refine ⟨fun k j => ∑ m, h.W2 k m * h.W1 m j,
    fun k => (∑ m, h.W2 k m * h.b1 m) + h.b2 k, fun batch n z => ?_⟩
  funext bb i j k
  exact linearApply_comp h.W1 h.b1 h.W2 h.b2 (z bb.2 i j) k

/-- C10: Because `BondTypeHead.forward` unconditionally unsqueezes a leading
axis, a `PairwiseHead` with `bond_reconstruction = true` given an embedding
whose `z` has an explicit batch axis `(B, N, N, c_z)` returns a distogram of
shape `(B, N, N, no_bins)` but bond-type logits of shape
`(1, B, N, N, no_bond_types)`: the two fields of one `PairwiseOutput` differ
by one leading dimension whenever the input is already batched. -/
theorem C10_batched_shape_mismatch {cz nbt nbins chidden B n : Nat}
    (btparams : BondTypeHead cz chidden nbt) (e : PairFormerOutput [B] n cz) :
    ((PairwiseHead.init cz nbt nbins chidden true btparams).forward
        e).distogram.shape = [B, n, n, nbins] ∧
    ((PairwiseHead.init cz nbt nbins chidden true btparams).forward
        e).token_bond_type_logits = some (btparams.forward e.z) ∧
    (btparams.forward e.z).shape = [1, B, n, n, nbt] := by
  refine ⟨rfl, ?_, rfl⟩
  simp [PairwiseHead.init, PairwiseHead.forward]

/-! ### Witness instances -/

/-- A concrete `(1, 1, 1)`-shaped sample input (no batch axes). -/
def zSample : PTensor [] 1 1 := fun _ _ _ _ => 0

/-- A concrete embedding record wrapping `zSample`. -/
def eSample : PairFormerOutput [] 1 1 := ⟨zSample⟩

/-- A concrete bond-type head parameter setting. -/
def btSample : BondTypeHead 1 1 1 :=
  { W1 := fun _ _ => 1, b1 := fun _ => 0, W2 := fun _ _ => 1, b2 := fun _ => 0 }

/-- A concrete pairwise head. -/
def hpSample : PairwiseHead 1 1 1 1 := PairwiseHead.init 1 1 1 1 true btSample

/-- Witness for C7 at concrete heads and inputs. -/
theorem C7_deterministic_witness :
    (DistogramHead.init 1 1).forward zSample = (DistogramHead.init 1 1).forward zSample ∧
    btSample.forward zSample = btSample.forward zSample ∧
    hpSample.forward eSample = hpSample.forward eSample :=
  C7_deterministic (DistogramHead.init 1 1) (DistogramHead.init 1 1) btSample btSample
    hpSample hpSample zSample zSample eSample eSample rfl rfl rfl rfl rfl
